import Mathlib

/-!
Verification of the result-classification and JSON-serialization layer of
Nominatim's `api/v1` (files `classtypes.py` and `format_json.py`).

The Python sources are embedded shallowly:

* The streaming `JsonWriter` (from `nominatim/utils/json_writer.py`, which is
  not part of the analysed sources) is modelled from the spec as an append-only
  trace of emission tokens together with a renderer that reproduces the
  "track nesting and comma placement automatically" behaviour: a pending
  one-character buffer that opening/closing brackets either flush or drop.
* Python dictionaries with string keys become association lists with Python's
  insertion-order semantics made explicit.
* Python truthiness of optional strings/lists ("None or empty is false") is
  modelled by explicit helper functions.
* Floats (coordinates, importance, distance) are embedded as rationals; their
  textual rendering is an abstract placeholder, which no claim depends on.
-/

set_option autoImplicit false

namespace Nominatim

/-! ## Python value conventions -/

/-- Python truthiness of an optional string: `None` and `""` are falsy. -/
def truthyStr : Option String → Bool
  | none => false
  | some s => s ≠ ""

/-- Python `x or y` on an optional string `x` (falls back on `None` or `""`). -/
def pyOrStr (o : Option String) (d : String) : String :=
  match o with
  | some s => if s = "" then d else s
  | none => d

/-- Python truthiness of an optional list (`None` and `[]` are falsy). -/
def truthyList {α : Type} : Option (List α) → Bool
  | none => false
  | some l => !l.isEmpty

/-- Python `d and k in d` for an optional string-keyed dict `d`. -/
def dictTruthyHas (o : Option (List (String × String))) (k : String) : Bool :=
  match o with
  | none => false
  | some l => !l.isEmpty && (l.lookup k).isSome

/-- Python `d[k]` for an optional string-keyed dict; total with a default of
`""` at the key-error case (never reached in guarded uses). -/
def dictIndex (o : Option (List (String × String))) (k : String) : String :=
  match o with
  | some l => (l.lookup k).getD ""
  | none => ""

/-! ## Classification tables (`classtypes.py`) -/

/-- Administrative-level display names, keyed by `(country-or-empty, rank/2)`;
translated verbatim from `ADMIN_LABELS` in `classtypes.py`. -/
def ADMIN_LABELS : List ((String × Nat) × String) :=
  [ (("", 1), "Continent"),
    (("", 2), "Country"),
    (("", 3), "Region"),
    (("", 4), "State"),
    (("", 5), "State District"),
    (("", 6), "County"),
    (("", 7), "Municipality"),
    (("", 8), "City"),
    (("", 9), "City District"),
    (("", 10), "Suburb"),
    (("", 11), "Neighbourhood"),
    (("", 12), "City Block"),
    (("no", 3), "State"),
    (("no", 4), "County"),
    (("se", 3), "State"),
    (("se", 4), "County") ]

/-- Icon identifiers keyed by exact `(primary, secondary)` tag pair;
translated verbatim from `ICONS` in `classtypes.py`. -/
def ICONS : List ((String × String) × String) :=
  [ (("boundary", "administrative"), "poi_boundary_administrative"),
    (("place", "city"), "poi_place_city"),
    (("place", "town"), "poi_place_town"),
    (("place", "village"), "poi_place_village"),
    (("place", "hamlet"), "poi_place_village"),
    (("place", "suburb"), "poi_place_village"),
    (("place", "locality"), "poi_place_village"),
    (("place", "airport"), "transport_airport2"),
    (("aeroway", "aerodrome"), "transport_airport2"),
    (("railway", "station"), "transport_train_station2"),
    (("amenity", "place_of_worship"), "place_of_worship_unknown3"),
    (("amenity", "pub"), "food_pub"),
    (("amenity", "bar"), "food_bar"),
    (("amenity", "university"), "education_university"),
    (("tourism", "museum"), "tourist_museum"),
    (("amenity", "arts_centre"), "tourist_art_gallery2"),
    (("tourism", "zoo"), "tourist_zoo"),
    (("tourism", "theme_park"), "poi_point_of_interest"),
    (("tourism", "attraction"), "poi_point_of_interest"),
    (("leisure", "golf_course"), "sport_golf"),
    (("historic", "castle"), "tourist_castle"),
    (("amenity", "hospital"), "health_hospital"),
    (("amenity", "school"), "education_school"),
    (("amenity", "theatre"), "tourist_theatre"),
    (("amenity", "library"), "amenity_library"),
    (("amenity", "fire_station"), "amenity_firestation3"),
    (("amenity", "police"), "amenity_police2"),
    (("amenity", "bank"), "money_bank2"),
    (("amenity", "post_office"), "amenity_post_office"),
    (("tourism", "hotel"), "accommodation_hotel2"),
    (("amenity", "cinema"), "tourist_cinema"),
    (("tourism", "artwork"), "tourist_art_gallery2"),
    (("historic", "archaeological_site"), "tourist_archaeological2"),
    (("amenity", "doctors"), "health_doctors"),
    (("leisure", "sports_centre"), "sport_leisure_centre"),
    (("leisure", "swimming_pool"), "sport_swimming_outdoor"),
    (("shop", "supermarket"), "shopping_supermarket"),
    (("shop", "convenience"), "shopping_convenience"),
    (("amenity", "restaurant"), "food_restaurant"),
    (("amenity", "fast_food"), "food_fastfood"),
    (("amenity", "cafe"), "food_cafe"),
    (("tourism", "guest_house"), "accommodation_bed_and_breakfast"),
    (("amenity", "pharmacy"), "health_pharmacy_dispensing"),
    (("amenity", "fuel"), "transport_fuel"),
    (("natural", "peak"), "poi_peak"),
    (("natural", "wood"), "landuse_coniferous_and_deciduous"),
    (("shop", "bicycle"), "shopping_bicycle"),
    (("shop", "clothes"), "shopping_clothes"),
    (("shop", "hairdresser"), "shopping_hairdresser"),
    (("shop", "doityourself"), "shopping_diy"),
    (("shop", "estate_agent"), "shopping_estateagent2"),
    (("shop", "car"), "shopping_car"),
    (("shop", "garden_centre"), "shopping_garden_centre"),
    (("shop", "car_repair"), "shopping_car_repair"),
    (("shop", "bakery"), "shopping_bakery"),
    (("shop", "butcher"), "shopping_butcher"),
    (("shop", "apparel"), "shopping_clothes"),
    (("shop", "laundry"), "shopping_laundrette"),
    (("shop", "beverages"), "shopping_alcohol"),
    (("shop", "alcohol"), "shopping_alcohol"),
    (("shop", "optician"), "health_opticians"),
    (("shop", "chemist"), "health_pharmacy"),
    (("shop", "gallery"), "tourist_art_gallery2"),
    (("shop", "jewelry"), "shopping_jewelry"),
    (("tourism", "information"), "amenity_information"),
    (("historic", "ruins"), "tourist_ruin"),
    (("amenity", "college"), "education_school"),
    (("historic", "monument"), "tourist_monument"),
    (("historic", "memorial"), "tourist_monument"),
    (("historic", "mine"), "poi_mine"),
    (("tourism", "caravan_site"), "accommodation_caravan_park"),
    (("amenity", "bus_station"), "transport_bus_station"),
    (("amenity", "atm"), "money_atm2"),
    (("tourism", "viewpoint"), "tourist_view_point"),
    (("tourism", "guesthouse"), "accommodation_bed_and_breakfast"),
    (("railway", "tram"), "transport_tram_stop"),
    (("amenity", "courthouse"), "amenity_court"),
    (("amenity", "recycling"), "amenity_recycling"),
    (("amenity", "dentist"), "health_dentist"),
    (("natural", "beach"), "tourist_beach"),
    (("railway", "tram_stop"), "transport_tram_stop"),
    (("amenity", "prison"), "amenity_prison"),
    (("highway", "bus_stop"), "transport_bus_stop2") ]

/-- Final post-processing of one character of a label: lowercase it and turn
a space into an underscore. -/
def normalizeLabelChar (c : Char) : Char :=
  if c = ' ' then '_' else c.toLower

/-- Final post-processing of a label: `label.lower().replace(' ', '_')`,
realized character-wise (the replaced pattern is the single space). -/
def normalizeLabel (label : String) : String :=
  String.mk (label.toList.map normalizeLabelChar)

/-- Translation of `get_label_tag` from `classtypes.py`: the ordered rule chain
that maps a category pair, the optional extratags, the address rank and the
optional country code to an address-type label. -/
def get_label_tag (category : String × String) (extratags : Option (List (String × String)))
    (rank : Nat) (country : Option String) : String :=
  let label :=
    if rank < 26 ∧ dictTruthyHas extratags "place" = true then
      dictIndex extratags "place"
    else if category = ("boundary", "administrative") then
      pyOrStr (ADMIN_LABELS.lookup (country.getD "", rank / 2))
        (pyOrStr (ADMIN_LABELS.lookup ("", rank / 2)) "Administrative")
    else if category.2 = "postal_code" then
      "postcode"
    else if rank < 26 then
      (if category.2 ≠ "yes" then category.2 else category.1)
    else if rank < 28 then
      "road"
    else if category.1 = "place" ∧
        (category.2 = "house_number" ∨ category.2 = "house_name" ∨ category.2 = "country_code") then
      category.2
    else
      category.1
  normalizeLabel label

/-- Translation of `GEOCODEJSON_RANKS` from `format_json.py`. -/
def GEOCODEJSON_RANKS : List (Nat × String) :=
  [ (3, "locality"),
    (4, "country"),
    (5, "state"), (6, "state"), (7, "state"), (8, "state"), (9, "state"),
    (10, "county"), (11, "county"), (12, "county"),
    (13, "city"), (14, "city"), (15, "city"), (16, "city"),
    (17, "district"), (18, "district"), (19, "district"), (20, "district"), (21, "district"),
    (22, "locality"), (23, "locality"), (24, "locality"),
    (25, "street"), (26, "street"), (27, "street"), (28, "house") ]

/-- Python `GEOCODEJSON_RANKS[rank]`; total with default `""` at the
key-error case (all uses in the source are range-guarded or clamped). -/
def geocodejsonRankName (rank : Nat) : String :=
  (GEOCODEJSON_RANKS.lookup rank).getD ""

/-! ## The streaming JSON writer

Modelled from the spec: the `JsonWriter` capability (low-level incremental
JSON construction) lives outside the analysed sources.  The spec requires
start/end object, start/end array, key-then-value emission, skip-if-absent
keyed emission, raw fragment embedding, a finalize-to-string operation, and
automatic comma/nesting tracking.  We record the emitted operations as a
token trace and render the trace to a string with a one-token pending buffer
(opening brackets and keys flush the buffer, closing brackets drop a pending
comma), which realizes the automatic comma placement. -/

/-- One emission operation of the streaming JSON writer. -/
inductive JTok where
  | startObj : JTok
  | endObj : JTok
  | startArr : JTok
  | endArr : JTok
  | key : String → JTok
  | raw : String → JTok
  | nextTok : JTok
deriving Repr, DecidableEq

/-- JSON string quoting for keys and string values (escapes backslash and
double quote; further escapes are irrelevant to the analysed data). -/
def jsonQuoteChar (c : Char) : String :=
  if c = '"' then "\\\"" else if c = '\\' then "\\\\" else String.singleton c

/-- Render a string as a JSON string literal. -/
def jsonQuote (s : String) : String :=
  "\"" ++ String.join (s.toList.map jsonQuoteChar) ++ "\""

/-- JSON values written through the writer. -/
inductive JValue where
  | jnull : JValue
  | jstr : String → JValue
  | jint : Int → JValue
  | jnum : Rat → JValue
  | jnumlist : List Rat → JValue
  | jmap : List (String × String) → JValue
deriving Repr, DecidableEq

/-- Abstract rendering of an embedded rational (stands in for Python float
serialization, which is out of the verified scope). -/
def ratJson (q : Rat) : String :=
  if q.den = 1 then toString q.num else toString q.num ++ "/" ++ toString q.den

/-- Serialize a `JValue` (the model of `json.dumps`). -/
def dumpJson : JValue → String
  | JValue.jnull => "null"
  | JValue.jstr s => jsonQuote s
  | JValue.jint n => toString n
  | JValue.jnum q => ratJson q
  | JValue.jnumlist l => "[" ++ String.intercalate "," (l.map ratJson) ++ "]"
  | JValue.jmap kvs =>
      "\x7b" ++
        String.intercalate "," (kvs.map fun kv => jsonQuote kv.1 ++ ":" ++ jsonQuote kv.2) ++
      "\x7d"

/-- The writer: an append-only token trace. -/
structure JsonWriter where
  toks : List JTok
deriving Repr, DecidableEq

def JsonWriter.new : JsonWriter := ⟨[]⟩

/-- Token sequence of `key(k); value(v); next()` (the `keyval` shortcut). -/
def keyvalToks (k : String) (v : JValue) : List JTok :=
  [JTok.key k, JTok.raw (dumpJson v), JTok.nextTok]

/-- Token sequence of `keyval_not_none`: skip when the value is absent. -/
def keyvalNotNoneToks (k : String) (v : Option JValue) : List JTok :=
  match v with
  | some v => keyvalToks k v
  | none => []

/-- One step of rendering the token trace: state is `(written, pending)`. -/
def renderStep : String × String → JTok → String × String
  | (d, p), JTok.startObj => (d ++ p, "\x7b")
  | (d, p), JTok.endObj => (if p = "\x7b" then (d ++ p, "\x7d") else (d, "\x7d"))
  | (d, p), JTok.startArr => (d ++ p, "[")
  | (d, p), JTok.endArr => (if p = "[" then (d ++ p, "]") else (d, "]"))
  | (d, p), JTok.key s => (d ++ p ++ jsonQuote s, ":")
  | (d, p), JTok.raw s => (d ++ p ++ s, "")
  | (d, p), JTok.nextTok => (d ++ p, ",")

/-- Render a full token trace starting from an empty buffer. -/
def renderState (toks : List JTok) : String × String :=
  toks.foldl renderStep ("", "")

/-- The writer's finalize-to-string operation (`out()` in the source):
flush the pending buffer and return the accumulated text. -/
def JsonWriter.finalize (w : JsonWriter) : String :=
  (renderState w.toks).1 ++ (renderState w.toks).2

/-! ## Data model (spec section 3; the `napi` result types are consumed
from outside the analysed sources) -/

/-- A geographic point.  Modelled from the spec: centroid `(lat, lon)`;
coordinates embedded as rationals. -/
structure Point where
  lat : Rat
  lon : Rat
deriving Repr, DecidableEq

/-- Modelled from the spec: the GeoJSON point derived from a centroid
(`Point.to_geojson` lives outside the analysed sources). -/
def Point.to_geojson (p : Point) : String :=
  "\x7b\"type\":\"Point\",\"coordinates\":[" ++ ratJson p.lon ++ "," ++ ratJson p.lat ++ "]\x7d"

/-- A bounding box.  Modelled from the spec: four ordered floats
`minlat, maxlat, minlon, maxlon`. -/
structure Bbox where
  minlat : Rat
  maxlat : Rat
  minlon : Rat
  maxlon : Rat
deriving Repr, DecidableEq

/-- Modelled from the spec: the GeoJSON `bbox` is written as a single
four-element array of coordinates. -/
def Bbox.coords (b : Bbox) : List Rat :=
  [b.minlon, b.minlat, b.maxlon, b.maxlat]

/-- An element of a result's ordered `address_rows` sequence
(spec section 3, `AddressLine`). -/
structure AddressLine where
  category : String × String
  extratags : Option (List (String × String))
  local_name : Option String
  isaddress : Bool
  rank_address : Nat
  admin_level : Option Nat
  place_id : Option Nat
deriving Repr, DecidableEq

/-- Modelled from the spec: the localization capability
(`localize(locales)` and display-name selection are external collaborators). -/
structure Locales where
  display_name : Option (List (String × String)) → Option String
  localizeRows : List AddressLine → List String

/-- A resolved place result (spec section 3, `Result`). -/
structure Result where
  place_id : Option Nat
  osm_object : Option (String × Int)
  category : String × String
  centroid : Point
  rank_search : Nat
  rank_address : Nat
  importance : Option Rat
  names : Option (List (String × String))
  extratags : Option (List (String × String))
  address_rows : Option (List AddressLine)
  country_code : Option String
  distance : Option Rat
  geometry : List (String × String)
  bbox : Option Bbox

/-- Modelled from the spec: the result's computed importance score is
consumed as an already-materialized value (score computation is out of
scope); absent importance defaults to zero in the model. -/
def Result.calculated_importance (r : Result) : Rat :=
  r.importance.getD 0

/-- Modelled from the spec: `bbox_from_result` (from `constants.py`, outside
the analysed sources) supplies a bounding box for every result, falling back
to a degenerate box at the centroid. -/
def bbox_from_result (r : Result) : Bbox :=
  r.bbox.getD ⟨r.centroid.lat, r.centroid.lat, r.centroid.lon, r.centroid.lon⟩

/-- Modelled from the spec: the licence attribution constant
(from `constants.py`, outside the analysed sources). -/
def OSM_ATTRIBUTION : String :=
  "Data by OpenStreetMap contributors, ODbL 1.0. http://osm.org/copyright"

/-- Modelled from the spec: the OSM type-name mapping
(from `constants.py`, outside the analysed sources). -/
def OSM_TYPE_NAME : List (String × String) :=
  [("N", "node"), ("W", "way"), ("R", "relation")]

/-- The recognized configuration options (spec section 6), with the
`options.get(...)` defaults already resolved. -/
structure FormatOptions where
  locales : Locales
  icon_base_url : Option String
  addressdetails : Bool
  extratags : Bool
  namedetails : Bool
  query : Option String

/-- Lift an optional string to a JSON value (`null` when absent). -/
def jvalOfOptStr : Option String → JValue
  | some s => JValue.jstr s
  | none => JValue.jnull

/-- Lift an optional string mapping to a JSON value (`null` when absent). -/
def jvalOfOptMap : Option (List (String × String)) → JValue
  | some m => JValue.jmap m
  | none => JValue.jnull

/-! ## Emitter helpers (`format_json.py`) -/

/-- Translation of `_write_osm_id`: when the OSM object reference is present,
write `osm_type` (when the type letter is known) and `osm_id`. -/
def osmIdToks (osm_object : Option (String × Int)) : List JTok :=
  match osm_object with
  | some obj =>
      keyvalNotNoneToks "osm_type" ((OSM_TYPE_NAME.lookup obj.1).map JValue.jstr)
        ++ keyvalToks "osm_id" (JValue.jint obj.2)
  | none => []

/-- One iteration of the first loop of `_write_typed_address`: insert
`label -> local_name` into `parts` if the label is not already present. -/
def typedAddressStep (country_code : Option String) (parts : List (String × String))
    (line : AddressLine) : List (String × String) :=
  match line.local_name with
  | some nm =>
      if line.isaddress && nm ≠ "" then
        let label := get_label_tag line.category line.extratags line.rank_address country_code
        if (parts.lookup label).isSome then parts else parts ++ [(label, nm)]
      else parts
  | none => parts

/-- The `parts` dictionary built by the first loop of `_write_typed_address`
(Python dict insertion order made explicit). -/
def typedAddressParts (address : List AddressLine) (country_code : Option String) :
    List (String × String) :=
  address.foldl (typedAddressStep country_code) []

/-- The trailing `country_code` emission shared by both address projections:
`if country_code: out.keyval('country_code', country_code)`. -/
def countryToks (country_code : Option String) : List JTok :=
  match country_code with
  | some cc => if cc = "" then [] else keyvalToks "country_code" (JValue.jstr cc)
  | none => []

/-- Translation of `_write_typed_address`: emit the `parts` dictionary in
insertion order, then the country code when available. -/
def typedAddressToks (address : Option (List AddressLine)) (country_code : Option String) :
    List JTok :=
  (typedAddressParts (address.getD []) country_code).flatMap
      (fun kv => keyvalToks kv.1 (JValue.jstr kv.2))
    ++ countryToks country_code

/-- Python dict assignment `extra[k] = v`: overwrite in place when the key is
present (keeping its original position), append otherwise. -/
def dictInsert (l : List (String × String)) (k v : String) : List (String × String) :=
  if (l.lookup k).isSome then
    l.map (fun p => if p.1 = k then (k, v) else p)
  else
    l ++ [(k, v)]

/-- One iteration of the loop of `_write_geocodejson_address`: either emit a
`postcode`/`housenumber` member directly or buffer into `extra`. -/
def geocodejsonAddressStep (obj_place_id : Option Nat)
    (acc : List JTok × List (String × String)) (line : AddressLine) :
    List JTok × List (String × String) :=
  match line.local_name with
  | some nm =>
      if line.isaddress && nm ≠ "" then
        if line.category.2 = "postcode" ∨ line.category.2 = "postal_code" then
          (acc.1 ++ keyvalToks "postcode" (JValue.jstr nm), acc.2)
        else if line.category.2 = "house_number" then
          (acc.1 ++ keyvalToks "housenumber" (JValue.jstr nm), acc.2)
        else if (obj_place_id.isNone ∨ obj_place_id ≠ line.place_id)
            ∧ 4 ≤ line.rank_address ∧ line.rank_address < 28 then
          (acc.1, dictInsert acc.2 (geocodejsonRankName line.rank_address) nm)
        else acc
      else acc
  | none => acc

/-- The loop of `_write_geocodejson_address`: directly emitted tokens
(postcode/housenumber) paired with the `extra` rank-bucket buffer. -/
def geocodejsonAddressState (address : List AddressLine) (obj_place_id : Option Nat) :
    List JTok × List (String × String) :=
  address.foldl (geocodejsonAddressStep obj_place_id) ([], [])

/-- Translation of `_write_geocodejson_address`: run the loop, flush the
`extra` buffer in insertion order, then the country code when available. -/
def geocodejsonAddressToks (address : Option (List AddressLine)) (obj_place_id : Option Nat)
    (country_code : Option String) : List JTok :=
  (geocodejsonAddressState (address.getD []) obj_place_id).1
    ++ ((geocodejsonAddressState (address.getD []) obj_place_id).2).flatMap
        (fun kv => keyvalToks kv.1 (JValue.jstr kv.2))
    ++ countryToks country_code

/-- The icon block of `format_base_json`: requires a truthy
`icon_base_url` option and an icon-table entry for the category. -/
def iconToks (options : FormatOptions) (r : Result) : List JTok :=
  match options.icon_base_url with
  | some base =>
      if base = "" then []
      else
        match ICONS.lookup r.category with
        | some icon =>
            if icon = "" then []
            else keyvalToks "icon" (JValue.jstr (base ++ "/" ++ icon ++ ".p.20.png"))
        | none => []
  | none => []

/-- The `boundingbox` block of `format_base_json`. -/
def bboxJsonToks (r : Result) : List JTok :=
  let bbox := bbox_from_result r
  [JTok.key "boundingbox", JTok.startArr,
   JTok.raw (ratJson bbox.minlat), JTok.nextTok,
   JTok.raw (ratJson bbox.maxlat), JTok.nextTok,
   JTok.raw (ratJson bbox.minlon), JTok.nextTok,
   JTok.raw (ratJson bbox.maxlon), JTok.nextTok,
   JTok.endArr, JTok.nextTok]

/-- The geometry block of `format_base_json` (lines 123-128): up to four
conditional geometry keys, the `geojson` fragment embedded raw. -/
def jsonGeometryToks (geometry : List (String × String)) : List JTok :=
  (["text", "kml"].flatMap fun key =>
      keyvalNotNoneToks ("geo" ++ key) ((geometry.lookup key).map JValue.jstr))
    ++ (match geometry.lookup "geojson" with
        | some frag => [JTok.key "geojson", JTok.raw frag, JTok.nextTok]
        | none => [])
    ++ keyvalNotNoneToks "svg" ((geometry.lookup "svg").map JValue.jstr)

/-- The single `geometry` member written by the two GeoJSON-family emitters:
the precomputed `geojson` fragment, or a point derived from the centroid. -/
def geometryRawToks (r : Result) : List JTok :=
  [JTok.key "geometry",
   JTok.raw (pyOrStr (r.geometry.lookup "geojson") r.centroid.to_geojson),
   JTok.nextTok]

/-- The localized breadcrumb:
`result.address_rows.localize(locales) if result.address_rows else []`. -/
def labelPartsOf (locales : Locales) (r : Result) : List String :=
  if truthyList r.address_rows then locales.localizeRows (r.address_rows.getD []) else []

/-! ## The plain-JSON emitter -/

/-- The loop body of `format_base_json` for one result, from `start_object`
up to and including `end_object`. -/
def jsonResultToks (options : FormatOptions) (class_label : String) (r : Result) : List JTok :=
  let locales := options.locales
  let label_parts := labelPartsOf locales r
  [JTok.startObj]
    ++ keyvalNotNoneToks "place_id" (r.place_id.map (fun n => JValue.jint n))
    ++ keyvalToks "licence" (JValue.jstr OSM_ATTRIBUTION)
    ++ osmIdToks r.osm_object
    ++ keyvalToks "lat" (JValue.jnum r.centroid.lat)
    ++ keyvalToks "lon" (JValue.jnum r.centroid.lon)
    ++ keyvalToks class_label (JValue.jstr r.category.1)
    ++ keyvalToks "type" (JValue.jstr r.category.2)
    ++ keyvalToks "place_rank" (JValue.jint r.rank_search)
    ++ keyvalToks "importance" (JValue.jnum r.calculated_importance)
    ++ keyvalToks "addresstype"
        (JValue.jstr (get_label_tag r.category r.extratags r.rank_address r.country_code))
    ++ keyvalToks "name" (jvalOfOptStr (locales.display_name r.names))
    ++ keyvalToks "display_name" (JValue.jstr (String.intercalate ", " label_parts))
    ++ iconToks options r
    ++ (if options.addressdetails then
          [JTok.key "address", JTok.startObj]
            ++ typedAddressToks r.address_rows r.country_code
            ++ [JTok.endObj, JTok.nextTok]
        else [])
    ++ (if options.extratags then keyvalToks "extratags" (jvalOfOptMap r.extratags) else [])
    ++ (if options.namedetails then keyvalToks "namedetails" (jvalOfOptMap r.names) else [])
    ++ bboxJsonToks r
    ++ (if r.geometry.isEmpty then [] else jsonGeometryToks r.geometry)
    ++ [JTok.endObj]

/-- The fixed empty-result payload of simple mode. -/
def errorPayload : String := "\x7b\"error\":\"Unable to geocode\"\x7d"

/-- Translation of `format_base_json`: in simple mode, return the error
payload on an empty result list, else serialize just the first result (the
loop returns after `end_object`); otherwise serialize the full array. -/
def format_base_json (results : List Result) (options : FormatOptions)
    (simple : Bool) (class_label : String) : String :=
  if simple then
    match results with
    | [] => errorPayload
    | r :: _ => JsonWriter.finalize ⟨jsonResultToks options class_label r⟩
  else
    JsonWriter.finalize
      ⟨[JTok.startArr]
        ++ results.flatMap (fun r => jsonResultToks options class_label r ++ [JTok.nextTok])
        ++ [JTok.endArr]⟩

/-! ## The GeoJSON emitter -/

/-- The loop body of `format_base_geojson` for one result (one feature,
including the trailing `next`). -/
def geojsonFeatureToks (options : FormatOptions) (r : Result) : List JTok :=
  let locales := options.locales
  let label_parts := labelPartsOf locales r
  [JTok.startObj]
    ++ keyvalToks "type" (JValue.jstr "Feature")
    ++ [JTok.key "properties", JTok.startObj]
    ++ keyvalNotNoneToks "place_id" (r.place_id.map (fun n => JValue.jint n))
    ++ osmIdToks r.osm_object
    ++ keyvalToks "place_rank" (JValue.jint r.rank_search)
    ++ keyvalToks "category" (JValue.jstr r.category.1)
    ++ keyvalToks "type" (JValue.jstr r.category.2)
    ++ keyvalToks "importance" (JValue.jnum r.calculated_importance)
    ++ keyvalToks "addresstype"
        (JValue.jstr (get_label_tag r.category r.extratags r.rank_address r.country_code))
    ++ keyvalToks "name" (jvalOfOptStr (locales.display_name r.names))
    ++ keyvalToks "display_name" (JValue.jstr (String.intercalate ", " label_parts))
    ++ (if options.addressdetails then
          [JTok.key "address", JTok.startObj]
            ++ typedAddressToks r.address_rows r.country_code
            ++ [JTok.endObj, JTok.nextTok]
        else [])
    ++ (if options.extratags then keyvalToks "extratags" (jvalOfOptMap r.extratags) else [])
    ++ (if options.namedetails then keyvalToks "namedetails" (jvalOfOptMap r.names) else [])
    ++ [JTok.endObj, JTok.nextTok]
    ++ keyvalToks "bbox" (JValue.jnumlist (bbox_from_result r).coords)
    ++ geometryRawToks r
    ++ [JTok.endObj, JTok.nextTok]

/-- Translation of `format_base_geojson`. -/
def format_base_geojson (results : List Result) (options : FormatOptions)
    (simple : Bool) : String :=
  if results.isEmpty && simple then errorPayload
  else
    JsonWriter.finalize
      ⟨[JTok.startObj]
        ++ keyvalToks "type" (JValue.jstr "FeatureCollection")
        ++ keyvalToks "licence" (JValue.jstr OSM_ATTRIBUTION)
        ++ [JTok.key "features", JTok.startArr]
        ++ results.flatMap (fun r => geojsonFeatureToks options r)
        ++ [JTok.endArr, JTok.nextTok, JTok.endObj]⟩

/-! ## The GeoCodeJSON emitter -/

/-- The rank-bucket type of a result: `GEOCODEJSON_RANKS` at the address rank
clamped to `[3, 28]` (line 247 of `format_json.py`). -/
def geocodejsonTypeName (r : Result) : String :=
  geocodejsonRankName (max 3 (min 28 r.rank_address))

/-- Python `admin_level or 15`: `None` and `0` are falsy and give 15. -/
def pyOrNatDefault (o : Option Nat) : Nat :=
  match o with
  | some n => if n = 0 then 15 else n
  | none => 15

/-- Python `str(...)` on an optional integer, as interpolated by the
`f"level{line.admin_level}"` f-string. -/
def pyShowOptNat : Option Nat → String
  | some n => toString n
  | none => "None"

/-- One `admin` entry: rows with `isaddress`, a truthy local name and
`(admin_level or 15) < 15` yield a `level<admin_level>` member. -/
def adminLineToks (line : AddressLine) : List JTok :=
  match line.local_name with
  | some nm =>
      if line.isaddress && (pyOrNatDefault line.admin_level < 15) && nm ≠ "" then
        keyvalToks ("level" ++ pyShowOptNat line.admin_level) (JValue.jstr nm)
      else []
  | none => []

/-- The `admin` sub-object block of `format_base_geocodejson`
(lines 256-261). -/
def adminBlockToks (address : Option (List AddressLine)) : List JTok :=
  [JTok.key "admin", JTok.startObj]
    ++ (if truthyList address then (address.getD []).flatMap adminLineToks else [])
    ++ [JTok.endObj, JTok.nextTok]

/-- The loop body of `format_base_geocodejson` for one result. -/
def geocodejsonFeatureToks (options : FormatOptions) (r : Result) : List JTok :=
  let locales := options.locales
  let label_parts := labelPartsOf locales r
  [JTok.startObj]
    ++ keyvalToks "type" (JValue.jstr "Feature")
    ++ [JTok.key "properties", JTok.startObj, JTok.key "geocoding", JTok.startObj]
    ++ keyvalNotNoneToks "place_id" (r.place_id.map (fun n => JValue.jint n))
    ++ osmIdToks r.osm_object
    ++ keyvalToks "osm_key" (JValue.jstr r.category.1)
    ++ keyvalToks "osm_value" (JValue.jstr r.category.2)
    ++ keyvalToks "type" (JValue.jstr (geocodejsonTypeName r))
    ++ keyvalNotNoneToks "accuracy" (r.distance.map JValue.jnum)
    ++ keyvalToks "label" (JValue.jstr (String.intercalate ", " label_parts))
    ++ keyvalNotNoneToks "name" ((locales.display_name r.names).map JValue.jstr)
    ++ (if options.addressdetails then
          geocodejsonAddressToks r.address_rows r.place_id r.country_code
            ++ adminBlockToks r.address_rows
        else [])
    ++ [JTok.endObj, JTok.nextTok, JTok.endObj, JTok.nextTok]
    ++ geometryRawToks r
    ++ [JTok.endObj, JTok.nextTok]

/-- Translation of `format_base_geocodejson`. -/
def format_base_geocodejson (results : List Result) (options : FormatOptions)
    (simple : Bool) : String :=
  if results.isEmpty && simple then errorPayload
  else
    JsonWriter.finalize
      ⟨[JTok.startObj]
        ++ keyvalToks "type" (JValue.jstr "FeatureCollection")
        ++ [JTok.key "geocoding", JTok.startObj]
        ++ keyvalToks "version" (JValue.jstr "0.1.0")
        ++ keyvalToks "attribution" (JValue.jstr OSM_ATTRIBUTION)
        ++ keyvalToks "licence" (JValue.jstr "ODbL")
        ++ keyvalNotNoneToks "query" (options.query.map JValue.jstr)
        ++ [JTok.endObj, JTok.nextTok, JTok.key "features", JTok.startArr]
        ++ results.flatMap (fun r => geocodejsonFeatureToks options r)
        ++ [JTok.endArr, JTok.nextTok, JTok.endObj]⟩

/-! ## Spec-side characterizations

These definitions follow the spec's words (first-occurrence-wins
deduplication, last-wins buffering flushed in first-insertion order, the
per-key geometry emission) and are compared with the source-derived
definitions above. -/

/-- Spec-side: keep only the first pair for every key, preserving order. -/
def dedupKeysFirst : List (String × String) → List (String × String)
  | [] => []
  | kv :: rest => kv :: dedupKeysFirst (rest.filter (fun p => p.1 != kv.1))
termination_by l => l.length
decreasing_by
  simp only [List.length_cons]
  have := List.length_filter_le (fun p => p.1 != kv.1) rest
  omega

/-- Spec-side: keep only the first occurrence of every key, preserving order. -/
def dedupFirst : List String → List String
  | [] => []
  | k :: rest => k :: dedupFirst (rest.filter (fun x => x != k))
termination_by l => l.length
decreasing_by
  simp only [List.length_cons]
  have := List.length_filter_le (fun x => x != k) rest
  omega

/-- Spec-side: the ordered `(label, local_name)` pairs of the rows that the
typed-address projection considers (`isaddress` with a truthy local name). -/
def labeledRows (address : List AddressLine) (country_code : Option String) :
    List (String × String) :=
  address.filterMap (fun line =>
    match line.local_name with
    | some nm =>
        if line.isaddress && nm ≠ "" then
          some (get_label_tag line.category line.extratags line.rank_address country_code, nm)
        else none
    | none => none)

/-- Spec-side: the tokens that the GeoCodeJSON address projection emits
immediately during the iteration (postcode and housenumber members). -/
def geocodejsonImmediateToks (address : List AddressLine) : List JTok :=
  address.flatMap (fun line =>
    match line.local_name with
    | some nm =>
        if line.isaddress && nm ≠ "" then
          if line.category.2 = "postcode" ∨ line.category.2 = "postal_code" then
            keyvalToks "postcode" (JValue.jstr nm)
          else if line.category.2 = "house_number" then
            keyvalToks "housenumber" (JValue.jstr nm)
          else []
        else []
    | none => [])

/-- Spec-side: the ordered `(bucket-name, local_name)` pairs that the
GeoCodeJSON address projection buffers (rows that are neither postcode nor
housenumber, are not the result's own entry, and have rank in `[4, 28)`). -/
def geocodejsonBucketRows (address : List AddressLine) (obj_place_id : Option Nat) :
    List (String × String) :=
  address.filterMap (fun line =>
    match line.local_name with
    | some nm =>
        if line.isaddress && nm ≠ "" then
          if line.category.2 = "postcode" ∨ line.category.2 = "postal_code" then none
          else if line.category.2 = "house_number" then none
          else if (obj_place_id.isNone ∨ obj_place_id ≠ line.place_id)
              ∧ 4 ≤ line.rank_address ∧ line.rank_address < 28 then
            some (geocodejsonRankName line.rank_address, nm)
          else none
        else none
    | none => none)

/-- Folding Python dict assignment over a pair list (the buffer's dynamics). -/
def dictFold (e : List (String × String)) (rows : List (String × String)) :
    List (String × String) :=
  rows.foldl (fun d kv => dictInsert d kv.1 kv.2) e

/-- The key names among a token sequence. -/
def tokKeys (toks : List JTok) : List String :=
  toks.filterMap (fun t => match t with | JTok.key s => some s | _ => none)

/-! ## Sample inputs used by witnesses and counterexamples -/

/-- A concrete localization capability for closed evaluations. -/
def sampleLocales : Locales where
  display_name := fun _ => none
  localizeRows := fun rows => rows.filterMap (fun line => line.local_name)

/-- A concrete configuration with every optional feature off. -/
def sampleOptions : FormatOptions where
  locales := sampleLocales
  icon_base_url := none
  addressdetails := false
  extratags := false
  namedetails := false
  query := none

/-- A minimal concrete result. -/
def sampleResult : Result where
  place_id := none
  osm_object := none
  category := ("amenity", "restaurant")
  centroid := ⟨0, 0⟩
  rank_search := 30
  rank_address := 30
  importance := some 0
  names := none
  extratags := none
  address_rows := none
  country_code := none
  distance := none
  geometry := []
  bbox := none

/-- A concrete geometry mapping holding all four precomputed fragments. -/
def sampleGeometry : List (String × String) :=
  [("text", "T"), ("kml", "K"), ("geojson", "G"), ("svg", "S")]

/-- A concrete address row. -/
def sampleLine : AddressLine where
  category := ("place", "city")
  extratags := none
  local_name := some "Springfield"
  isaddress := true
  rank_address := 16
  admin_level := some 8
  place_id := some 11

/-- A second concrete address row resolving to the same label. -/
def sampleLine2 : AddressLine where
  category := ("place", "city")
  extratags := none
  local_name := some "Shelbyville"
  isaddress := true
  rank_address := 16
  admin_level := some 8
  place_id := some 12

/-- A concrete postcode address row. -/
def samplePostcodeLine : AddressLine where
  category := ("place", "postcode")
  extratags := none
  local_name := some "12345"
  isaddress := true
  rank_address := 5
  admin_level := none
  place_id := some 21

/-! ## Rendering lemmas -/

theorem renderStep_shift (st : String × String) (t : JTok) :
    renderStep st t = (st.1 ++ (renderStep ("", st.2) t).1, (renderStep ("", st.2) t).2) := by
  obtain ⟨d, p⟩ := st
  cases t <;> simp only [renderStep] <;> (try split) <;> simp [String.append_assoc]

theorem renderFold_shift (toks : List JTok) (st : String × String) :
    toks.foldl renderStep st =
      (st.1 ++ (toks.foldl renderStep ("", st.2)).1, (toks.foldl renderStep ("", st.2)).2) := by
  induction toks generalizing st with
  | nil => simp
  | cons t ts ih =>
      rw [List.foldl_cons, List.foldl_cons, ih (renderStep st t), renderStep_shift st t,
        ih (renderStep ("", st.2) t)]
      simp [String.append_assoc]

theorem renderStep_endObj_pending (st : String × String) :
    (renderStep st JTok.endObj).2 = "\x7d" := by
  obtain ⟨d, p⟩ := st
  simp only [renderStep]
  split <;> rfl

/-! ## C2: simple mode on an empty result sequence -/

/-- C2: with `simple = true` and an empty result sequence, each of the three
emitters returns exactly the fixed payload, before any container is opened. -/
theorem simple_empty_is_error_payload (options : FormatOptions) (class_label : String) :
    format_base_json [] options true class_label = "\x7b\"error\":\"Unable to geocode\"\x7d"
    ∧ format_base_geojson [] options true = "\x7b\"error\":\"Unable to geocode\"\x7d"
    ∧ format_base_geocodejson [] options true = "\x7b\"error\":\"Unable to geocode\"\x7d" :=
  ⟨rfl, rfl, rfl⟩

/-! ## C5: the label of `("amenity", "restaurant")` at rank 30 -/

/-- C5 counterexample: the label resolver applied to `("amenity",
"restaurant")` with `rank_address = 30` and no extratags does not return
`"restaurant"` (it falls through to the primary-tag rule). -/
theorem restaurant_rank30_not_restaurant :
    ¬ get_label_tag ("amenity", "restaurant") none 30 none = "restaurant" := by
  decide

/-- C5 amended: for `("amenity", "restaurant")` at `rank_address = 30` the
label resolver returns the primary tag `"amenity"` (rule 7); neither rule 4
(which requires rank below 26) nor the place-extratag rule applies at rank
30, for any extratags and any country. -/
theorem restaurant_rank30_label (extratags : Option (List (String × String)))
    (country : Option String) :
    get_label_tag ("amenity", "restaurant") extratags 30 country = "amenity" := by
  simp [get_label_tag]
  decide

/-! ## C6: the place extratag overrides all other rules below rank 26 -/

/-- C6: for every category, country and rank below 26, when the extratags
contain the key `place` with value `x`, the label resolver returns `x`
lowercased with spaces replaced by underscores (the place extratag overrides
every other rule). -/
theorem place_extratag_overrides (category : String × String) (country : Option String)
    (rank : Nat) (l : List (String × String)) (x : String)
    (hrank : rank < 26) (hx : l.lookup "place" = some x) :
    get_label_tag category (some l) rank country = normalizeLabel x := by
  have hne : l.isEmpty = false := by
    cases l with
    | nil => simp at hx
    | cons a t => rfl
  unfold get_label_tag
  rw [if_pos ⟨hrank, by simp [dictTruthyHas, hne, hx]⟩]
  simp [dictIndex, hx]

/-- C6 witness at a concrete input (lowercasing and space replacement shown
on a concrete value). -/
theorem place_extratag_overrides_witness :
    get_label_tag ("boundary", "administrative") (some [("place", "Town Centre")]) 10 (some "no")
      = normalizeLabel "Town Centre"
    ∧ normalizeLabel "Town Centre" = "town_centre" :=
  ⟨place_extratag_overrides ("boundary", "administrative") (some "no") 10
    [("place", "Town Centre")] "Town Centre" (by decide) (by decide), by decide⟩

/-! ## C9: the GeoCodeJSON rank clamp -/

/-- C9: the GeoCodeJSON feature `type` is the rank-bucket name at the address
rank clamped to `[3, 28]`; rank 1 gives `locality` and rank 30 gives
`house`. -/
theorem geocodejson_rank_clamp (r : Result) :
    geocodejsonTypeName r = geocodejsonRankName (max 3 (min 28 r.rank_address))
    ∧ (r.rank_address = 1 → geocodejsonTypeName r = "locality")
    ∧ (r.rank_address = 30 → geocodejsonTypeName r = "house") := by
  refine ⟨rfl, ?_, ?_⟩ <;> intro h <;> simp [geocodejsonTypeName, h] <;> decide

/-- C9 witness at concrete ranks 1 and 30. -/
theorem geocodejson_rank_clamp_witness :
    geocodejsonTypeName { sampleResult with rank_address := 1 } = "locality"
    ∧ geocodejsonTypeName sampleResult = "house" :=
  ⟨(geocodejson_rank_clamp { sampleResult with rank_address := 1 }).2.1 rfl,
   (geocodejson_rank_clamp sampleResult).2.2 rfl⟩

/-! ## C10: admin levels in the GeoCodeJSON admin sub-object -/

/-- C10: a row with `admin_level = 0` contributes to the `admin` sub-object
exactly what a row with absent `admin_level` does (nothing: the `or 15`
default applies to `0` as well); an entry is produced precisely for rows
with `isaddress`, a truthy local name and an `admin_level` strictly between
0 and 15; and the emitter's `admin` block is exactly these entries wrapped
in the `admin` object. -/
theorem admin_level_zero_excluded (line : AddressLine) :
    adminLineToks { line with admin_level := some 0 }
      = adminLineToks { line with admin_level := none }
    ∧ (adminLineToks line ≠ []
        ↔ line.isaddress = true
          ∧ (∃ nm, line.local_name = some nm ∧ nm ≠ "")
          ∧ (∃ a, line.admin_level = some a ∧ 0 < a ∧ a < 15))
    ∧ (∀ rows : List AddressLine,
        adminBlockToks (some rows)
          = [JTok.key "admin", JTok.startObj]
              ++ rows.flatMap adminLineToks ++ [JTok.endObj, JTok.nextTok]) := by
  refine ⟨?_, ?_, ?_⟩
  · simp [adminLineToks, pyOrNatDefault]
  · cases hl : line.local_name with
    | none => simp [adminLineToks, hl]
    | some nm =>
        cases ha : line.admin_level with
        | none =>
            simp [adminLineToks, hl, ha, pyOrNatDefault, keyvalToks]
        | some a =>
            by_cases h0 : a = 0
            · subst h0
              simp [adminLineToks, hl, ha, pyOrNatDefault, keyvalToks]
            · simp [adminLineToks, hl, ha, pyOrNatDefault, keyvalToks, h0,
                Nat.pos_iff_ne_zero]
              tauto
  · intro rows
    cases rows with
    | nil => simp [adminBlockToks, truthyList]
    | cons l ls => simp [adminBlockToks, truthyList]

/-- Rendering a single object body wrapped in the array container equals the
bracketed rendering of the body alone: the body's trailing comma is dropped
by the closing bracket. -/
theorem renderState_array_single (body : List JTok)
    (hhead : ∃ tl, body = JTok.startObj :: tl)
    (hlast : ∃ ini, body = ini ++ [JTok.endObj]) :
    JsonWriter.finalize ⟨[JTok.startArr] ++ (body ++ [JTok.nextTok]) ++ [JTok.endArr]⟩
      = "[" ++ JsonWriter.finalize ⟨body⟩ ++ "]" := by
  obtain ⟨tl, htl⟩ := hhead
  obtain ⟨ini, hini⟩ := hlast
  have hV2 : (List.foldl renderStep ("", "\x7b") tl).2 = "\x7d" := by
    have hbody : List.foldl renderStep ("", "") body
        = List.foldl renderStep ("", "\x7b") tl := by
      rw [htl]
      simp only [List.foldl_cons]
      rfl
    rw [← hbody, hini, List.foldl_append]
    exact renderStep_endObj_pending _
  unfold JsonWriter.finalize renderState
  rw [List.foldl_append, List.foldl_append, List.foldl_append]
  simp only [List.foldl_cons, List.foldl_nil]
  have e1 : renderStep ("", "") JTok.startArr = ("", "[") := rfl
  have e3 : renderStep ("", "") JTok.startObj = ("", "\x7b") := rfl
  rw [htl]
  simp only [List.foldl_cons]
  rw [e1, e3]
  have e2 : renderStep ("", "[") JTok.startObj = ("[", "\x7b") := rfl
  rw [e2, renderFold_shift tl ("[", "\x7b")]
  simp only [hV2]
  simp [renderStep, String.append_assoc]

/-! ## C1: the simple-mode single-result shortcut -/

set_option maxHeartbeats 1600000 in
/-- C1 amended: only the plain-JSON emitter implements the simple-mode
shortcut: on a non-empty sequence it serializes exactly the first result and
never opens or closes the outer array (its non-simple single-result output
is precisely the simple output wrapped in brackets), while the GeoJSON and
GeoCodeJSON emitters ignore the simple flag on non-empty input, emitting
every result and closing the `FeatureCollection` container. -/
theorem simple_mode_shortcut :
    (∀ (r : Result) (rs : List Result) (options : FormatOptions) (cl : String),
        format_base_json (r :: rs) options true cl = format_base_json [r] options true cl)
    ∧ (∀ (r : Result) (options : FormatOptions) (cl : String),
        format_base_json [r] options false cl
          = "[" ++ format_base_json [r] options true cl ++ "]")
    ∧ (∀ (results : List Result) (options : FormatOptions), results ≠ [] →
        format_base_geojson results options true = format_base_geojson results options false)
    ∧ (∀ (results : List Result) (options : FormatOptions), results ≠ [] →
        format_base_geocodejson results options true
          = format_base_geocodejson results options false) := by
  refine ⟨?_, ?_, ?_, ?_⟩
  · intro r rs options cl
    show JsonWriter.finalize ⟨jsonResultToks options cl r⟩
        = JsonWriter.finalize ⟨jsonResultToks options cl r⟩
    rfl
  · intro r options cl
    have h := renderState_array_single (jsonResultToks options cl r) ⟨_, rfl⟩ ⟨_, rfl⟩
    calc format_base_json [r] options false cl
        = JsonWriter.finalize
            ⟨[JTok.startArr] ++ ((jsonResultToks options cl r ++ [JTok.nextTok]) ++ [])
              ++ [JTok.endArr]⟩ := rfl
      _ = JsonWriter.finalize
            ⟨[JTok.startArr] ++ (jsonResultToks options cl r ++ [JTok.nextTok])
              ++ [JTok.endArr]⟩ := by simp
      _ = "[" ++ JsonWriter.finalize ⟨jsonResultToks options cl r⟩ ++ "]" := h
      _ = "[" ++ format_base_json [r] options true cl ++ "]" := rfl
  · intro results options h
    cases results with
    | nil => exact absurd rfl h
    | cons r rs => simp only [format_base_geojson, List.isEmpty_cons, Bool.false_and]
  · intro results options h
    cases results with
    | nil => exact absurd rfl h
    | cons r rs => simp only [format_base_geocodejson, List.isEmpty_cons, Bool.false_and]

/-- C1 witness at concrete inputs. -/
theorem simple_mode_shortcut_witness :
    format_base_json [sampleResult, sampleResult] sampleOptions true "class"
      = format_base_json [sampleResult] sampleOptions true "class"
    ∧ format_base_json [sampleResult] sampleOptions false "class"
      = "[" ++ format_base_json [sampleResult] sampleOptions true "class" ++ "]"
    ∧ format_base_geojson [sampleResult] sampleOptions true
      = format_base_geojson [sampleResult] sampleOptions false
    ∧ format_base_geocodejson [sampleResult] sampleOptions true
      = format_base_geocodejson [sampleResult] sampleOptions false :=
  ⟨simple_mode_shortcut.1 sampleResult [sampleResult] sampleOptions "class",
   simple_mode_shortcut.2.1 sampleResult sampleOptions "class",
   simple_mode_shortcut.2.2.1 [sampleResult] sampleOptions (by simp),
   simple_mode_shortcut.2.2.2 [sampleResult] sampleOptions (by simp)⟩

set_option maxRecDepth 8192 in
set_option maxHeartbeats 1600000 in
/-- C1 counterexample: on a non-empty result sequence with `simple = true`
the GeoJSON emitter does not stop after the first result's object: its
output is identical to the non-simple output and is a complete, closed
`FeatureCollection` document (the literal below ends by closing the
`features` array and the outer object). -/
theorem geojson_simple_mode_counterexample :
    format_base_geojson [sampleResult] sampleOptions true
      = format_base_geojson [sampleResult] sampleOptions false
    ∧ format_base_geojson [sampleResult] sampleOptions true
      = "\x7b\"type\":\"FeatureCollection\",\"licence\":\"Data by OpenStreetMap contributors, ODbL 1.0. http://osm.org/copyright\",\"features\":[\x7b\"type\":\"Feature\",\"properties\":\x7b\"place_rank\":30,\"category\":\"amenity\",\"type\":\"restaurant\",\"importance\":0,\"addresstype\":\"amenity\",\"name\":null,\"display_name\":\"\"\x7d,\"bbox\":[0,0,0,0],\"geometry\":\x7b\"type\":\"Point\",\"coordinates\":[0,0]\x7d\x7d]\x7d" := by
  constructor
  · simp only [format_base_geojson, List.isEmpty_cons, Bool.false_and]
  · rfl

/-! ## C3: totality on well-formed input and omission of absent fields -/

/-- C3: the emitters are total functions that omit absent optional data:
the GeoJSON-family geometry member falls back to the centroid-derived point
whenever the `geojson` fragment is absent (or empty, which Python's `or`
treats as absent); the GeoCodeJSON rank lookups cannot fail, neither at the
clamped result rank nor at a buffered row rank (the only fallible
dictionary indexings in the emitters); an absent `address_rows` yields an
empty breadcrumb; an absent country code, icon-table entry, icon base URL
or optional value produces no tokens at all. -/
theorem emitters_omit_absent_fields :
    (∀ r : Result, truthyStr (r.geometry.lookup "geojson") = false →
        geometryRawToks r
          = [JTok.key "geometry", JTok.raw r.centroid.to_geojson, JTok.nextTok])
    ∧ (∀ n : Nat, (GEOCODEJSON_RANKS.lookup (max 3 (min 28 n))).isSome = true)
    ∧ (∀ n : Nat, 4 ≤ n → n < 28 → (GEOCODEJSON_RANKS.lookup n).isSome = true)
    ∧ (∀ locales : Locales, ∀ r : Result, r.address_rows = none →
        labelPartsOf locales r = [])
    ∧ countryToks none = []
    ∧ (∀ cc : Option String, typedAddressToks none cc = countryToks cc)
    ∧ (∀ options : FormatOptions, ∀ r : Result,
        options.icon_base_url = none ∨ ICONS.lookup r.category = none →
        iconToks options r = [])
    ∧ (∀ k : String, keyvalNotNoneToks k none = []) := by
  have hball : ∀ m : Nat, m < 29 → 3 ≤ m → (GEOCODEJSON_RANKS.lookup m).isSome = true := by
    decide
  refine ⟨?_, ?_, ?_, ?_, rfl, ?_, ?_, fun _ => rfl⟩
  · intro r h
    unfold geometryRawToks pyOrStr
    cases hg : r.geometry.lookup "geojson" with
    | none => rfl
    | some s =>
        rw [hg] at h
        simp [truthyStr] at h
        simp [h]
  · intro n
    exact hball _ (by omega) (by omega)
  · intro n h4 h28
    exact hball _ (by omega) (by omega)
  · intro locales r h
    simp [labelPartsOf, h, truthyList]
  · intro cc
    simp [typedAddressToks, typedAddressParts]
  · intro options r h
    cases h with
    | inl h => simp [iconToks, h]
    | inr h =>
        unfold iconToks
        cases hb : options.icon_base_url with
        | none => rfl
        | some base => simp [h]

/-- C3 witness at concrete inputs: the centroid fallback both for an absent
and for an empty `geojson` fragment, and the clamped rank lookup at the
extreme rank 0. -/
theorem emitters_omit_absent_fields_witness :
    geometryRawToks sampleResult
      = [JTok.key "geometry", JTok.raw sampleResult.centroid.to_geojson, JTok.nextTok]
    ∧ geometryRawToks { sampleResult with geometry := [("geojson", "")] }
      = [JTok.key "geometry", JTok.raw sampleResult.centroid.to_geojson, JTok.nextTok]
    ∧ (GEOCODEJSON_RANKS.lookup (max 3 (min 28 0))).isSome = true
    ∧ iconToks sampleOptions sampleResult = [] :=
  ⟨emitters_omit_absent_fields.1 sampleResult (by decide),
   emitters_omit_absent_fields.1 { sampleResult with geometry := [("geojson", "")] } (by decide),
   emitters_omit_absent_fields.2.1 0,
   emitters_omit_absent_fields.2.2.2.2.2.2.1 sampleOptions sampleResult (Or.inl rfl)⟩

/-! ## C4: the plain-JSON geometry keys -/

/-- C4 counterexample: with all four fragments present the plain-JSON
emitter writes the key `svg`, not `geosvg`, both in the geometry block and
in the full per-result emission. -/
theorem json_geometry_svg_key :
    JTok.key "svg" ∈ jsonGeometryToks sampleGeometry
    ∧ JTok.key "geosvg" ∉ jsonGeometryToks sampleGeometry
    ∧ JTok.key "svg"
        ∈ jsonResultToks sampleOptions "class" { sampleResult with geometry := sampleGeometry }
    ∧ JTok.key "geosvg"
        ∉ jsonResultToks sampleOptions "class"
            { sampleResult with geometry := sampleGeometry } := by
  decide

/-- C4 amended: for every geometry mapping, the keys emitted by the
plain-JSON geometry block are exactly `geotext`, `geokml`, `geojson` and
`svg` (not `geosvg`), each present exactly when the corresponding fragment
(`text`, `kml`, `geojson`, `svg`) is present in the mapping, with the
`geojson` fragment embedded raw. -/
theorem json_geometry_keys (g : List (String × String)) :
    tokKeys (jsonGeometryToks g)
      = (if (g.lookup "text").isSome then ["geotext"] else [])
        ++ (if (g.lookup "kml").isSome then ["geokml"] else [])
        ++ (if (g.lookup "geojson").isSome then ["geojson"] else [])
        ++ (if (g.lookup "svg").isSome then ["svg"] else [])
    ∧ jsonGeometryToks g
      = keyvalNotNoneToks "geotext" ((g.lookup "text").map JValue.jstr)
        ++ keyvalNotNoneToks "geokml" ((g.lookup "kml").map JValue.jstr)
        ++ (match g.lookup "geojson" with
            | some frag => [JTok.key "geojson", JTok.raw frag, JTok.nextTok]
            | none => [])
        ++ keyvalNotNoneToks "svg" ((g.lookup "svg").map JValue.jstr) := by
  constructor
  · cases h1 : g.lookup "text" <;> cases h2 : g.lookup "kml" <;>
      cases h3 : g.lookup "geojson" <;> cases h4 : g.lookup "svg" <;>
      simp [jsonGeometryToks, tokKeys, keyvalNotNoneToks, keyvalToks, h1, h2, h3, h4]
  · simp [jsonGeometryToks]

/-! ## Association-list lemmas -/

theorem lookup_filter_ne (xs : List (String × String)) (L k : String) (h : k ≠ L) :
    (xs.filter (fun p => p.1 != L)).lookup k = xs.lookup k := by
  induction xs with
  | nil => simp
  | cons a t ih =>
      obtain ⟨a1, a2⟩ := a
      by_cases ha : a1 = L
      · subst ha
        have h2 : (k == a1) = false := beq_eq_false_iff_ne.mpr h
        simp [List.filter_cons, List.lookup_cons, h2, ih]
      · have h1 : (a1 != L) = true := bne_iff_ne.mpr ha
        by_cases hk : k = a1
        · subst hk
          simp [List.filter_cons, h1, List.lookup_cons]
        · have h2 : (k == a1) = false := beq_eq_false_iff_ne.mpr hk
          simp [List.filter_cons, h1, List.lookup_cons, h2, ih]

theorem dedupKeysFirst_lookup (xs : List (String × String)) (k : String) :
    (dedupKeysFirst xs).lookup k = xs.lookup k := by
  induction xs using dedupKeysFirst.induct with
  | case1 => simp [dedupKeysFirst]
  | case2 kv rest ih =>
      obtain ⟨L, v⟩ := kv
      by_cases hk : k = L
      · subst hk
        simp [dedupKeysFirst, List.lookup_cons]
      · have h2 : (k == L) = false := beq_eq_false_iff_ne.mpr hk
        simp only [dedupKeysFirst, List.lookup_cons, h2]
        rw [ih, lookup_filter_ne _ _ _ hk]

/-! ## C7: the typed-address projection -/

theorem typedFold_general (cc : Option String) (address : List AddressLine) :
    ∀ parts : List (String × String),
      address.foldl (typedAddressStep cc) parts
        = parts ++ dedupKeysFirst
            ((labeledRows address cc).filter fun p => (parts.lookup p.1).isNone) := by
  induction address with
  | nil =>
      intro parts
      simp [labeledRows, dedupKeysFirst]
  | cons line rest ih =>
      intro parts
      rw [List.foldl_cons]
      cases hl : line.local_name with
      | none =>
          rw [show typedAddressStep cc parts line = parts from by simp [typedAddressStep, hl]]
          rw [ih parts]
          simp [labeledRows, List.filterMap_cons, hl]
      | some nm =>
          by_cases hisa : line.isaddress = true
          · by_cases hnm : nm = ""
            · rw [show typedAddressStep cc parts line = parts from by
                simp [typedAddressStep, hl, hnm]]
              rw [ih parts]
              simp [labeledRows, List.filterMap_cons, hl, hnm]
            · have hlab : labeledRows (line :: rest) cc
                  = (get_label_tag line.category line.extratags line.rank_address cc, nm)
                    :: labeledRows rest cc := by
                simp [labeledRows, List.filterMap_cons, hl, hisa, hnm]
              by_cases hp :
                  (parts.lookup
                    (get_label_tag line.category line.extratags line.rank_address cc)).isSome
              · have hstep : typedAddressStep cc parts line = parts := by
                  simp [typedAddressStep, hl, hisa, hnm, hp]
                rw [hstep, ih parts, hlab, List.filter_cons]
                obtain ⟨v, hv⟩ := Option.isSome_iff_exists.mp hp
                simp [hv]
              · have hstep : typedAddressStep cc parts line
                    = parts
                      ++ [(get_label_tag line.category line.extratags line.rank_address cc,
                           nm)] := by
                  simp [typedAddressStep, hl, hisa, hnm, hp]
                have hfilters :
                    (labeledRows rest cc).filter
                      (fun p =>
                        ((parts
                          ++ [(get_label_tag line.category line.extratags line.rank_address cc,
                               nm)]).lookup p.1).isNone)
                    = ((labeledRows rest cc).filter
                        (fun p => (parts.lookup p.1).isNone)).filter
                        (fun p =>
                          p.1 != get_label_tag line.category line.extratags line.rank_address
                            cc) := by
                  rw [List.filter_filter]
                  apply List.filter_congr
                  intro p _
                  rw [List.lookup_append]
                  by_cases hpk :
                      p.1 = get_label_tag line.category line.extratags line.rank_address cc
                  · cases hx : parts.lookup p.1 <;>
                      simp [List.lookup_cons, hpk, hx]
                  · have h2 :
                        (p.1 == get_label_tag line.category line.extratags line.rank_address
                          cc) = false := beq_eq_false_iff_ne.mpr hpk
                    cases hx : parts.lookup p.1 <;>
                      simp [List.lookup_cons, h2, hx, bne_iff_ne, hpk]
                have hnone :
                    (parts.lookup
                      (get_label_tag line.category line.extratags line.rank_address
                        cc)).isNone = true := by
                  cases hx :
                      parts.lookup
                        (get_label_tag line.category line.extratags line.rank_address cc) with
                  | none => rfl
                  | some v => rw [hx] at hp; simp at hp
                rw [hstep, ih _, hlab, List.filter_cons, hfilters, if_pos hnone]
                rw [show
                    dedupKeysFirst
                      ((get_label_tag line.category line.extratags line.rank_address cc, nm)
                        :: ((labeledRows rest cc).filter fun p => (parts.lookup p.1).isNone))
                    = (get_label_tag line.category line.extratags line.rank_address cc, nm)
                      :: dedupKeysFirst
                        (((labeledRows rest cc).filter fun p => (parts.lookup p.1).isNone).filter
                          (fun p =>
                            p.1 != get_label_tag line.category line.extratags line.rank_address
                              cc))
                  from by rw [dedupKeysFirst]]
                simp
          · rw [Bool.not_eq_true] at hisa
            rw [show typedAddressStep cc parts line = parts from by
              simp [typedAddressStep, hl, hisa]]
            rw [ih parts]
            simp [labeledRows, List.filterMap_cons, hl, hisa]

/-- C7: the typed-address projection deduplicates labels with the first
occurrence winning: the emitted `parts` dictionary is exactly the
first-wins deduplication of the ordered labelled rows (so row order is
preserved and, for each label, the first matching row's `local_name` is the
value emitted), and the emission consists of those pairs followed by the
`country_code` member when a country code is available. -/
theorem typed_address_first_wins (address : List AddressLine) (cc : String) (hcc : cc ≠ "") :
    typedAddressParts address (some cc) = dedupKeysFirst (labeledRows address (some cc))
    ∧ (∀ lab : String,
        (typedAddressParts address (some cc)).lookup lab
          = (labeledRows address (some cc)).lookup lab)
    ∧ typedAddressToks (some address) (some cc)
        = (typedAddressParts address (some cc)).flatMap
            (fun kv => keyvalToks kv.1 (JValue.jstr kv.2))
          ++ keyvalToks "country_code" (JValue.jstr cc) := by
  have h1 : typedAddressParts address (some cc)
      = dedupKeysFirst (labeledRows address (some cc)) := by
    have h := typedFold_general (some cc) address []
    simpa [typedAddressParts] using h
  refine ⟨h1, ?_, ?_⟩
  · intro lab
    rw [h1, dedupKeysFirst_lookup]
  · simp [typedAddressToks, countryToks, hcc]

/-- C7 witness: two concrete rows resolving to the same label `city`; only
the first row's name survives, and the country code follows. -/
theorem typed_address_first_wins_witness :
    typedAddressParts [sampleLine, sampleLine2] (some "us")
      = dedupKeysFirst (labeledRows [sampleLine, sampleLine2] (some "us"))
    ∧ typedAddressParts [sampleLine, sampleLine2] (some "us") = [("city", "Springfield")]
    ∧ typedAddressToks (some [sampleLine, sampleLine2]) (some "us")
        = (typedAddressParts [sampleLine, sampleLine2] (some "us")).flatMap
            (fun kv => keyvalToks kv.1 (JValue.jstr kv.2))
          ++ keyvalToks "country_code" (JValue.jstr "us") :=
  ⟨(typed_address_first_wins [sampleLine, sampleLine2] "us" (by decide)).1,
   by decide,
   (typed_address_first_wins [sampleLine, sampleLine2] "us" (by decide)).2.2⟩

/-! ## Python dict-insertion lemmas -/

theorem mapReplace_lookup (e : List (String × String)) (k0 v0 k : String) :
    (e.map (fun p => if p.1 = k0 then (k0, v0) else p)).lookup k
      = if k = k0 then (e.lookup k0).map (fun _ => v0) else e.lookup k := by
  induction e with
  | nil => by_cases hk : k = k0 <;> simp [hk]
  | cons a t ih =>
      obtain ⟨a1, a2⟩ := a
      by_cases h1 : a1 = k0
      · subst h1
        by_cases hk : k = a1
        · subst hk
          simp [List.lookup_cons]
        · have hb : (k == a1) = false := beq_eq_false_iff_ne.mpr hk
          have hk0 : ¬ k = a1 := hk
          simp [List.lookup_cons, hb, ih, hk0]
      · by_cases hk : k = a1
        · subst hk
          have hkk0 : ¬ k = k0 := h1
          simp [List.lookup_cons, h1, hkk0]
        · have hb : (k == a1) = false := beq_eq_false_iff_ne.mpr hk
          by_cases hk0 : k = k0
          · subst hk0
            simp [List.lookup_cons, h1, hb, ih]
          · simp [List.lookup_cons, h1, hb, ih, hk0]

theorem dictInsert_lookup (e : List (String × String)) (k0 v0 k : String) :
    (dictInsert e k0 v0).lookup k = if k = k0 then some v0 else e.lookup k := by
  unfold dictInsert
  by_cases hp : (e.lookup k0).isSome
  · rw [if_pos hp, mapReplace_lookup]
    by_cases hk : k = k0
    · obtain ⟨v, hv⟩ := Option.isSome_iff_exists.mp hp
      simp [hk, hv]
    · simp [hk]
  · rw [if_neg hp, List.lookup_append]
    by_cases hk : k = k0
    · subst hk
      have hnone : e.lookup k = none := by
        cases hx : e.lookup k with
        | none => rfl
        | some v => rw [hx] at hp; simp at hp
      simp [hnone, List.lookup_cons]
    · have hb : (k == k0) = false := beq_eq_false_iff_ne.mpr hk
      simp [List.lookup_cons, hb, hk, Option.or_none]

theorem dictInsert_keys (e : List (String × String)) (k0 v0 : String) :
    (dictInsert e k0 v0).map Prod.fst
      = if (e.lookup k0).isSome then e.map Prod.fst else e.map Prod.fst ++ [k0] := by
  unfold dictInsert
  by_cases hp : (e.lookup k0).isSome
  · rw [if_pos hp, if_pos hp, List.map_map]
    apply List.map_congr_left
    intro p _
    by_cases h : p.1 = k0 <;> simp [h]
  · rw [if_neg hp, if_neg hp, List.map_append]
    rfl

theorem dictFold_lookup (rows : List (String × String)) :
    ∀ (e : List (String × String)) (k : String),
      (dictFold e rows).lookup k = (rows.reverse.lookup k).or (e.lookup k) := by
  induction rows with
  | nil => intro e k; simp [dictFold]
  | cons a t ih =>
      intro e k
      obtain ⟨k0, v0⟩ := a
      rw [show dictFold e ((k0, v0) :: t) = dictFold (dictInsert e k0 v0) t from rfl]
      rw [ih, dictInsert_lookup, List.reverse_cons, List.lookup_append]
      by_cases hk : k = k0
      · subst hk
        simp [List.lookup_cons, Option.or_assoc,
          show ∀ o : Option String, (Option.some v0).or o = some v0 from fun _ => rfl]
      · have hb : (k == k0) = false := beq_eq_false_iff_ne.mpr hk
        simp [List.lookup_cons, hb, hk, Option.or_assoc, Option.none_or]

theorem dictFold_keys (rows : List (String × String)) :
    ∀ e : List (String × String),
      (dictFold e rows).map Prod.fst
        = e.map Prod.fst
          ++ dedupFirst ((rows.map Prod.fst).filter (fun k => (e.lookup k).isNone)) := by
  induction rows with
  | nil => intro e; simp [dictFold, dedupFirst]
  | cons a t ih =>
      intro e
      obtain ⟨k0, v0⟩ := a
      rw [show dictFold e ((k0, v0) :: t) = dictFold (dictInsert e k0 v0) t from rfl, ih]
      by_cases hp : (e.lookup k0).isSome
      · rw [dictInsert_keys, if_pos hp]
        have hfeq : (t.map Prod.fst).filter (fun k => ((dictInsert e k0 v0).lookup k).isNone)
            = (t.map Prod.fst).filter (fun k => (e.lookup k).isNone) := by
          apply List.filter_congr
          intro k _
          rw [dictInsert_lookup]
          by_cases hk : k = k0
          · subst hk
            obtain ⟨v, hv⟩ := Option.isSome_iff_exists.mp hp
            simp [hv]
          · simp [hk]
        rw [hfeq, List.map_cons, List.filter_cons]
        obtain ⟨v, hv⟩ := Option.isSome_iff_exists.mp hp
        simp [hv]
      · rw [dictInsert_keys, if_neg hp]
        have hnone : e.lookup k0 = none := by
          cases hx : e.lookup k0 with
          | none => rfl
          | some v => rw [hx] at hp; simp at hp
        have hfeq : (t.map Prod.fst).filter (fun k => ((dictInsert e k0 v0).lookup k).isNone)
            = ((t.map Prod.fst).filter (fun k => (e.lookup k).isNone)).filter
                (fun x => x != k0) := by
          rw [List.filter_filter]
          apply List.filter_congr
          intro k _
          rw [dictInsert_lookup]
          by_cases hk : k = k0
          · subst hk; simp
          · simp [hk, bne_iff_ne]
        rw [hfeq, List.map_cons, List.filter_cons]
        rw [if_pos (by simp [hnone])]
        rw [show dedupFirst (k0 :: (t.map Prod.fst).filter (fun k => (e.lookup k).isNone))
            = k0 :: dedupFirst
                (((t.map Prod.fst).filter (fun k => (e.lookup k).isNone)).filter
                  (fun x => x != k0))
          from by rw [dedupFirst]]
        simp [List.append_assoc]

/-! ## C8: the GeoCodeJSON address projection -/

theorem gcjFold_split (pid : Option Nat) (address : List AddressLine) :
    ∀ (t : List JTok) (e : List (String × String)),
      address.foldl (geocodejsonAddressStep pid) (t, e)
        = (t ++ geocodejsonImmediateToks address,
           dictFold e (geocodejsonBucketRows address pid)) := by
  induction address with
  | nil =>
      intro t e
      simp [geocodejsonImmediateToks, geocodejsonBucketRows, dictFold]
  | cons line rest ih =>
      intro t e
      rw [List.foldl_cons]
      cases hl : line.local_name with
      | none =>
          rw [show geocodejsonAddressStep pid (t, e) line = (t, e) from by
            simp [geocodejsonAddressStep, hl]]
          rw [ih t e]
          simp [geocodejsonImmediateToks, geocodejsonBucketRows, List.filterMap_cons, hl]
      | some nm =>
          by_cases hisa : line.isaddress = true
          · by_cases hnm : nm = ""
            · rw [show geocodejsonAddressStep pid (t, e) line = (t, e) from by
                simp [geocodejsonAddressStep, hl, hnm]]
              rw [ih t e]
              simp [geocodejsonImmediateToks, geocodejsonBucketRows, List.filterMap_cons,
                hl, hnm]
            · by_cases hpost : line.category.2 = "postcode" ∨ line.category.2 = "postal_code"
              · rw [show geocodejsonAddressStep pid (t, e) line
                    = (t ++ keyvalToks "postcode" (JValue.jstr nm), e) from by
                  simp [geocodejsonAddressStep, hl, hisa, hnm, hpost]]
                rw [ih _ _]
                simp [geocodejsonImmediateToks, geocodejsonBucketRows, List.filterMap_cons,
                  hl, hisa, hnm, hpost, List.append_assoc]
              · by_cases hhouse : line.category.2 = "house_number"
                · rw [show geocodejsonAddressStep pid (t, e) line
                      = (t ++ keyvalToks "housenumber" (JValue.jstr nm), e) from by
                    simp [geocodejsonAddressStep, hl, hisa, hnm, hpost, hhouse]]
                  rw [ih _ _]
                  simp [geocodejsonImmediateToks, geocodejsonBucketRows, List.filterMap_cons,
                    hl, hisa, hnm, hpost, hhouse, List.append_assoc]
                · by_cases hrank : (pid = none ∨ ¬ pid = line.place_id)
                      ∧ 4 ≤ line.rank_address ∧ line.rank_address < 28
                  · have hstep : geocodejsonAddressStep pid (t, e) line
                        = (t, dictInsert e (geocodejsonRankName line.rank_address) nm) := by
                      simp [geocodejsonAddressStep, hl, hisa, hnm, hpost, hhouse, hrank.1,
                        hrank.2.1, hrank.2.2]
                    have hbr : geocodejsonBucketRows (line :: rest) pid
                        = (geocodejsonRankName line.rank_address, nm)
                          :: geocodejsonBucketRows rest pid := by
                      simp [geocodejsonBucketRows, List.filterMap_cons, hl, hisa, hnm, hpost,
                        hhouse, hrank.1, hrank.2.1, hrank.2.2]
                    have him : geocodejsonImmediateToks (line :: rest)
                        = geocodejsonImmediateToks rest := by
                      simp [geocodejsonImmediateToks, hl, hisa, hnm, hpost, hhouse]
                    rw [hstep, ih _ _, hbr, him]
                    rfl
                  · have hstep : geocodejsonAddressStep pid (t, e) line = (t, e) := by
                      simp only [geocodejsonAddressStep, hl]
                      simp [hisa, hnm, hpost, hhouse]
                      intro h1 h2 h3
                      exact absurd ⟨h1, h2, h3⟩ hrank
                    have hbr : geocodejsonBucketRows (line :: rest) pid
                        = geocodejsonBucketRows rest pid := by
                      simp only [geocodejsonBucketRows, List.filterMap_cons]
                      simp [hl, hisa, hnm, hpost, hhouse]
                      rw [if_neg hrank]
                    have him : geocodejsonImmediateToks (line :: rest)
                        = geocodejsonImmediateToks rest := by
                      simp [geocodejsonImmediateToks, hl, hisa, hnm, hpost, hhouse]
                    rw [hstep, ih t e, hbr, him]
          · rw [Bool.not_eq_true] at hisa
            rw [show geocodejsonAddressStep pid (t, e) line = (t, e) from by
              simp [geocodejsonAddressStep, hl, hisa]]
            rw [ih t e]
            simp [geocodejsonImmediateToks, geocodejsonBucketRows, List.filterMap_cons,
              hl, hisa]

/-- C8: the GeoCodeJSON address projection emits postcode and housenumber
rows immediately during the iteration, buffers every other eligible row
(not the result's own entry, rank in `[4, 28)`) under its rank-bucket name
with a later row overwriting an earlier same-bucket entry while the bucket
keeps its first-insertion position, and flushes the buffer after the
iteration followed by the `country_code` member. -/
theorem geocodejson_address_semantics (address : List AddressLine) (pid : Option Nat)
    (cc : String) (hcc : cc ≠ "") :
    (geocodejsonAddressState address pid).1 = geocodejsonImmediateToks address
    ∧ (∀ k : String,
        ((geocodejsonAddressState address pid).2).lookup k
          = ((geocodejsonBucketRows address pid).reverse).lookup k)
    ∧ ((geocodejsonAddressState address pid).2).map Prod.fst
        = dedupFirst ((geocodejsonBucketRows address pid).map Prod.fst)
    ∧ geocodejsonAddressToks (some address) pid (some cc)
        = (geocodejsonAddressState address pid).1
          ++ ((geocodejsonAddressState address pid).2).flatMap
              (fun kv => keyvalToks kv.1 (JValue.jstr kv.2))
          ++ keyvalToks "country_code" (JValue.jstr cc) := by
  have hsplit := gcjFold_split pid address [] []
  have h1 : geocodejsonAddressState address pid
      = (geocodejsonImmediateToks address,
         dictFold [] (geocodejsonBucketRows address pid)) := by
    unfold geocodejsonAddressState
    rw [hsplit]
    simp
  refine ⟨?_, ?_, ?_, ?_⟩
  · rw [h1]
  · intro k
    rw [h1]
    show (dictFold [] (geocodejsonBucketRows address pid)).lookup k = _
    rw [dictFold_lookup]
    simp
  · rw [h1]
    show (dictFold [] (geocodejsonBucketRows address pid)).map Prod.fst = _
    rw [dictFold_keys]
    simp
  · simp [geocodejsonAddressToks, countryToks, hcc, List.append_assoc]

/-- C8 witness: a postcode row emitted immediately, and two rows of the same
rank bucket `city` where the later one overwrites the earlier one in the
buffer. -/
theorem geocodejson_address_semantics_witness :
    (geocodejsonAddressState [samplePostcodeLine, sampleLine, sampleLine2] (some 1)).1
      = geocodejsonImmediateToks [samplePostcodeLine, sampleLine, sampleLine2]
    ∧ (geocodejsonAddressState [samplePostcodeLine, sampleLine, sampleLine2] (some 1)).1
      = keyvalToks "postcode" (JValue.jstr "12345")
    ∧ (geocodejsonAddressState [samplePostcodeLine, sampleLine, sampleLine2] (some 1)).2
      = [("city", "Shelbyville")]
    ∧ geocodejsonAddressToks (some [samplePostcodeLine, sampleLine, sampleLine2]) (some 1)
        (some "us")
      = (geocodejsonAddressState [samplePostcodeLine, sampleLine, sampleLine2] (some 1)).1
        ++ ((geocodejsonAddressState [samplePostcodeLine, sampleLine, sampleLine2]
              (some 1)).2).flatMap (fun kv => keyvalToks kv.1 (JValue.jstr kv.2))
        ++ keyvalToks "country_code" (JValue.jstr "us") :=
  ⟨(geocodejson_address_semantics [samplePostcodeLine, sampleLine, sampleLine2] (some 1) "us"
      (by decide)).1,
   by decide,
   by decide,
   (geocodejson_address_semantics [samplePostcodeLine, sampleLine, sampleLine2] (some 1) "us"
      (by decide)).2.2.2⟩

end Nominatim
